import Mathlib

/-!
TargetConditionals.h: a shallow embedding of `lib/libc/include/any-macos-any/TargetConditionals.h`.

The header is a preprocessor program: its input is the build environment (what
the compiler predefines, what its `__has_builtin` / `__is_target_*` operators
answer, and what the command line defines with `-D`), its output is the table
of `TARGET_*` definitions that exists once the last line has been processed,
or an `#error`.

Conventions of the embedding:

* the body between the include guard (lines 35-36 and 534) is what is embedded:
  the function describes the first inclusion of the header;
* a `#define` of a name that is already defined replaces the definition;
* inside `#if`, a name that is not defined counts as `0`;
* the conditions of lines 140 and 342, `!defined(F) || !F(x)` and
  `defined(F) && F(x)`, are each one `#if` expression that is parsed whole:
  when `F` is not defined, `F(x)` is not an expression, the preprocessor rejects
  the directive and the header is not processed to the end. The nested form of
  lines 141-145 has no such case;
* processing stops at the first `#error` or rejected directive.
-/

namespace TargetConditionals

/-- The names the header defines or tests with `#ifndef` / `#if`. -/
inductive Ident
  | TARGET_OS_MAC | TARGET_OS_OSX | TARGET_OS_IPHONE | TARGET_OS_IOS
  | TARGET_OS_WATCH | TARGET_OS_TV | TARGET_OS_MACCATALYST | TARGET_OS_UIKITFORMAC
  | TARGET_OS_SIMULATOR | TARGET_OS_EMBEDDED | TARGET_OS_UNIX | TARGET_OS_VISION
  | TARGET_OS_DRIVERKIT | TARGET_OS_RTKIT | TARGET_OS_WIN32 | TARGET_OS_WINDOWS
  | TARGET_OS_LINUX | TARGET_OS_BRIDGE | TARGET_OS_NANO | TARGET_IPHONE_SIMULATOR
  | DYNAMIC_TARGETS_ENABLED
  | TARGET_RT_LITTLE_ENDIAN | TARGET_RT_BIG_ENDIAN | TARGET_RT_64_BIT
  | TARGET_RT_MAC_CFM | TARGET_RT_MAC_MACHO
  | TARGET_CPU_PPC | TARGET_CPU_PPC64 | TARGET_CPU_68K | TARGET_CPU_X86
  | TARGET_CPU_X86_64 | TARGET_CPU_ARM | TARGET_CPU_ARM64 | TARGET_CPU_MIPS
  | TARGET_CPU_SPARC | TARGET_CPU_ALPHA
  | TARGET_ABI_USES_IOS_VALUES
  deriving DecidableEq, Repr

/-- The names predefined by the compiler that the header looks at. -/
inductive CompilerSym
  | __GNUC__ | __APPLE_CPP__ | __APPLE_CC__ | __MACOS_CLASSIC__ | __MWERKS__
  | __POWERPC__ | __INTEL__ | __MACH__
  | __ppc__ | __ppc64__ | __i386__ | __x86_64__ | __arm__ | __arm64__
  | __BYTE_ORDER__ | __ORDER_LITTLE_ENDIAN__ | __LP64__
  deriving DecidableEq, Repr

/-- The argument of `__has_extension` on line 140. -/
inductive Extension
  | define_target_os_macros
  deriving DecidableEq, Repr

/-- The arguments of `__has_builtin` on lines 142-145 and 342. -/
inductive Builtin
  | __is_target_arch | __is_target_vendor | __is_target_os | __is_target_environment
  deriving DecidableEq, Repr

/-- The arguments of `__is_target_arch` in the header. -/
inductive Arch
  | x86_64 | arm64 | arm64e | arm64_32 | arm | i386
  deriving DecidableEq, Repr

/-- The argument of `__is_target_vendor` in the header. -/
inductive Vendor
  | apple
  deriving DecidableEq, Repr

/-- The arguments of `__is_target_os` in the header. -/
inductive OS
  | ios | xros | driverkit
  deriving DecidableEq, Repr

/-- The arguments of `__is_target_environment` in the header. -/
inductive Environment
  | macabi | simulator | exclavekit | exclavecore
  deriving DecidableEq, Repr

/-- A replacement list: a number, or one of the two shapes of lines 521-529. -/
inductive Body
  | num (v : Int)
  | same_as (m : Ident)
  | abi_uses_ios_values
  deriving DecidableEq, Repr

/-- The definitions in force at a point of the header: `none` is "not defined". -/
abbrev Table := Ident → Option Body

/-- The build environment.

`has_extension` and `has_builtin` are `none` when the operator itself is not
defined. The `__is_target_*` operators are predicates of the compiler and are
only consulted where `has_builtin` says they exist. `sym` gives the value of a
compiler-predefined name (`none`: not defined). `predefined` is what the
command line (or, with `define_target_os_macros`, the compiler) defines before
the header is read. -/
structure Env where
  has_extension : Option (Extension → Bool)
  has_builtin : Option (Builtin → Bool)
  is_target_arch : Arch → Bool
  is_target_vendor : Vendor → Bool
  is_target_os : OS → Bool
  is_target_environment : Environment → Bool
  sym : CompilerSym → Option Int
  predefined : Ident → Option Int

/-- The ways in which the header is not processed to the end: its five `#error`
lines, and the two `#if` lines that are rejected when the operator they call is
not defined. -/
inductive HeaderError
  /-- line 140, `__has_extension` not defined -/
  | malformed_if_line_140
  /-- line 342, `__has_builtin` not defined -/
  | malformed_if_line_342
  /-- line 303 -/
  | unknown_Metrowerks_CPU_type_rt
  /-- line 353 -/
  | unrecognized_arch
  /-- line 374 -/
  | unrecognized_GNU_C_compiler
  /-- line 386 -/
  | unknown_Metrowerks_CPU_type_cpu
  /-- line 407 -/
  | unknown_compiler
  deriving DecidableEq, Repr

open Ident

/-- `#define m b` -/
def define (m : Ident) (b : Body) (t : Table) : Table :=
  fun n => if n = m then some b else t n

/-- `#ifndef m` / `#define m b` / `#endif`: a name that is defined keeps its
definition, and `m` gets `b` when it has none. -/
def ifndef_define (m : Ident) (b : Body) (t : Table) : Table :=
  fun n =>
    match t n with
    | some x => some x
    | none => if n = m then some b else none

/-- The value of the name `m` inside `#if`: its replacement list evaluated,
`0` when the name is not defined. The fuel bounds the chain of names that stand
for other names; there are fewer than forty names. -/
def eval : Nat → Table → Ident → Int
  | 0, _, _ => 0
  | k + 1, t, m =>
    match t m with
    | none => 0
    | some (Body.num v) => v
    | some (Body.same_as m') => eval k t m'
    | some Body.abi_uses_ios_values =>
      if eval k t TARGET_CPU_X86_64 = 0
          ∨ (eval k t TARGET_OS_IPHONE ≠ 0 ∧ eval k t TARGET_OS_MACCATALYST = 0)
      then 1 else 0

/-- The value of `m` in `#if m`. -/
def value (t : Table) (m : Ident) : Int := eval 40 t m

/-- `defined(s)` for a compiler-predefined name. -/
def defined (env : Env) (s : CompilerSym) : Bool := (env.sym s).isSome

/-- The value of a compiler-predefined name inside `#if`. -/
def symValue (env : Env) (s : CompilerSym) : Int := (env.sym s).getD 0

/-- Line 140: `!defined(__has_extension) || !__has_extension(define_target_os_macros)`.
The answer is `none` when `__has_extension` is not defined: the second operand
is then not an expression and the directive is rejected. When it is defined the
first operand is false and the second decides. -/
def no_define_target_os_macros (env : Env) : Option Bool :=
  match env.has_extension with
  | none => none
  | some f => some (!f Extension.define_target_os_macros)

/-- Lines 141-145: `__has_builtin` is defined and has all four operators. -/
def has_target_builtins (env : Env) : Bool :=
  match env.has_builtin with
  | none => false
  | some f => f Builtin.__is_target_arch && f Builtin.__is_target_vendor
      && f Builtin.__is_target_os && f Builtin.__is_target_environment

/-- Line 342: `defined(__has_builtin) && __has_builtin(__is_target_arch)`.
The answer is `none` when `__has_builtin` is not defined: the second operand is
then not an expression and the directive is rejected. When it is defined the
first operand is true and the second decides. -/
def has_is_target_arch (env : Env) : Option Bool :=
  match env.has_builtin with
  | none => none
  | some f => some (f Builtin.__is_target_arch)

/-- Lines 230, 271 and 360:
`defined(__GNUC__) && ( defined(__APPLE_CPP__) || defined(__APPLE_CC__) || defined(__MACOS_CLASSIC__) )`. -/
def apple_gcc (env : Env) : Bool :=
  defined env CompilerSym.__GNUC__
    && (defined env CompilerSym.__APPLE_CPP__ || defined env CompilerSym.__APPLE_CC__
        || defined env CompilerSym.__MACOS_CLASSIC__)

/-- Line 150: the condition of the `macabi` block. -/
def macabi_target (env : Env) : Bool :=
  (env.is_target_arch Arch.x86_64 || env.is_target_arch Arch.arm64
      || env.is_target_arch Arch.arm64e)
    && env.is_target_vendor Vendor.apple && env.is_target_os OS.ios
    && env.is_target_environment Environment.macabi

/-- Line 166: the condition of the `simulator` block. -/
def simulator_target (env : Env) : Bool :=
  (env.is_target_arch Arch.x86_64 || env.is_target_arch Arch.arm64
      || env.is_target_arch Arch.arm64e)
    && env.is_target_vendor Vendor.apple && env.is_target_os OS.ios
    && env.is_target_environment Environment.simulator

/-- Line 178: the condition of the `xros` block. -/
def xros_target (env : Env) : Bool :=
  env.is_target_vendor Vendor.apple && env.is_target_os OS.xros
    && (!env.is_target_environment Environment.exclavekit
        && !env.is_target_environment Environment.exclavecore)

/-- Line 193: the condition of the `exclavecore` block. -/
def exclavecore_target (env : Env) : Bool :=
  env.is_target_vendor Vendor.apple && env.is_target_environment Environment.exclavecore

/-- Line 200: the condition of the `exclavekit` block. -/
def exclavekit_target (env : Env) : Bool :=
  env.is_target_vendor Vendor.apple && env.is_target_environment Environment.exclavekit

/-- Line 210: the condition of the `driverkit` block. -/
def driverkit_target (env : Env) : Bool :=
  env.is_target_vendor Vendor.apple && env.is_target_os OS.driverkit

/-- Lines 150-161. -/
def macabi_block (env : Env) (t : Table) : Table :=
  if macabi_target env then
    t |> define TARGET_OS_MAC (Body.num 1)
      |> define TARGET_OS_IPHONE (Body.num 1)
      |> define TARGET_OS_IOS (Body.num 1)
      |> define TARGET_OS_MACCATALYST (Body.num 1)
      |> define TARGET_OS_MACCATALYST (Body.num 1)
      |> ifndef_define TARGET_OS_UIKITFORMAC (Body.num 1)
      |> define TARGET_OS_UNIX (Body.num 0)
      |> define DYNAMIC_TARGETS_ENABLED (Body.num 1)
  else t

/-- Lines 166-173. -/
def simulator_block (env : Env) (t : Table) : Table :=
  if simulator_target env then
    t |> define TARGET_OS_MAC (Body.num 1)
      |> define TARGET_OS_IPHONE (Body.num 1)
      |> define TARGET_OS_IOS (Body.num 1)
      |> define TARGET_OS_SIMULATOR (Body.num 1)
      |> define TARGET_OS_UNIX (Body.num 0)
      |> define DYNAMIC_TARGETS_ENABLED (Body.num 1)
  else t

/-- Lines 182-186, inside the `xros` block. -/
def xros_simulator_or_embedded (env : Env) (t : Table) : Table :=
  if env.is_target_environment Environment.simulator then
    define TARGET_OS_SIMULATOR (Body.num 1) t
  else
    define TARGET_OS_EMBEDDED (Body.num 1) t

/-- Lines 178-190. -/
def xros_block (env : Env) (t : Table) : Table :=
  if xros_target env then
    t |> define TARGET_OS_MAC (Body.num 1)
      |> define TARGET_OS_IPHONE (Body.num 1)
      |> xros_simulator_or_embedded env
      |> define TARGET_OS_VISION (Body.num 1)
      |> define TARGET_OS_UNIX (Body.num 0)
      |> define DYNAMIC_TARGETS_ENABLED (Body.num 1)
  else t

/-- Lines 193-197. -/
def exclavecore_block (env : Env) (t : Table) : Table :=
  if exclavecore_target env then
    t |> define TARGET_OS_UNIX (Body.num 0)
      |> define DYNAMIC_TARGETS_ENABLED (Body.num 1)
  else t

/-- Lines 200-205. -/
def exclavekit_block (env : Env) (t : Table) : Table :=
  if exclavekit_target env then
    t |> define TARGET_OS_MAC (Body.num 1)
      |> define TARGET_OS_UNIX (Body.num 0)
      |> define DYNAMIC_TARGETS_ENABLED (Body.num 1)
  else t

/-- Lines 210-215. -/
def driverkit_block (env : Env) (t : Table) : Table :=
  if driverkit_target env then
    t |> define TARGET_OS_MAC (Body.num 1)
      |> define TARGET_OS_DRIVERKIT (Body.num 1)
      |> define TARGET_OS_UNIX (Body.num 0)
      |> define DYNAMIC_TARGETS_ENABLED (Body.num 1)
  else t

/-- Lines 141-221: the `__is_target_*` based definitions. -/
def dynamic_targets (env : Env) (t : Table) : Table :=
  if has_target_builtins env then
    t |> macabi_block env |> simulator_block env |> xros_block env
      |> exclavecore_block env |> exclavekit_block env |> driverkit_block env
  else t

/-- Lines 230-262: the compiler based definitions. -/
def static_targets (env : Env) (t : Table) : Table :=
  if apple_gcc env then
    if value t DYNAMIC_TARGETS_ENABLED = 0 then
      t |> define TARGET_OS_MAC (Body.num 1)
        |> define TARGET_OS_OSX (Body.num 1)
        |> define TARGET_OS_IPHONE (Body.num 0)
        |> define TARGET_OS_IOS (Body.num 0)
        |> define TARGET_OS_WATCH (Body.num 0)
        |> define TARGET_OS_TV (Body.num 0)
        |> define TARGET_OS_MACCATALYST (Body.num 0)
        |> define TARGET_OS_MACCATALYST (Body.num 0)
        |> ifndef_define TARGET_OS_UIKITFORMAC (Body.num 0)
        |> define TARGET_OS_SIMULATOR (Body.num 0)
        |> define TARGET_OS_EMBEDDED (Body.num 0)
        |> define TARGET_OS_UNIX (Body.num 0)
    else t
  else if defined env CompilerSym.__MWERKS__ then
    define TARGET_OS_MAC (Body.num 1) t
  else
    define TARGET_OS_MAC (Body.num 1) t

/-- Lines 141-262: the group that line 140 opens. -/
def os_body (env : Env) (t : Table) : Table :=
  t |> dynamic_targets env
    |> ifndef_define DYNAMIC_TARGETS_ENABLED (Body.num 0)
    |> static_targets env

/-- Lines 140-263. -/
def os_section (env : Env) (t : Table) : Except HeaderError Table :=
  match no_define_target_os_macros env with
  | none => Except.error HeaderError.malformed_if_line_140
  | some true => Except.ok (os_body env t)
  | some false => Except.ok t

/-- Lines 305-312: the end of the Metrowerks branch of the `TARGET_RT_*` definitions. -/
def rt_metrowerks_tail (env : Env) (t : Table) : Table :=
  let t := define TARGET_RT_64_BIT (Body.num 0) t
  if defined env CompilerSym.__MACH__ then
    t |> define TARGET_RT_MAC_CFM (Body.num 0)
      |> define TARGET_RT_MAC_MACHO (Body.num 1)
  else
    t |> define TARGET_RT_MAC_CFM (Body.num 1)
      |> define TARGET_RT_MAC_MACHO (Body.num 0)

/-- Lines 271-337: the `TARGET_RT_*` definitions. -/
def rt_section (env : Env) (t : Table) : Except HeaderError Table :=
  if apple_gcc env then
    let t := if symValue env CompilerSym.__BYTE_ORDER__
                = symValue env CompilerSym.__ORDER_LITTLE_ENDIAN__ then
        t |> define TARGET_RT_LITTLE_ENDIAN (Body.num 1)
          |> define TARGET_RT_BIG_ENDIAN (Body.num 0)
      else
        t |> define TARGET_RT_LITTLE_ENDIAN (Body.num 0)
          |> define TARGET_RT_BIG_ENDIAN (Body.num 1)
    let t := if symValue env CompilerSym.__LP64__ ≠ 0 then
        define TARGET_RT_64_BIT (Body.num 1) t
      else
        define TARGET_RT_64_BIT (Body.num 0) t
    let t := if defined env CompilerSym.__ppc__
                ∧ symValue env CompilerSym.__MACOS_CLASSIC__ ≠ 0 then
        t |> define TARGET_RT_MAC_CFM (Body.num 1)
          |> define TARGET_RT_MAC_MACHO (Body.num 0)
      else
        t |> define TARGET_RT_MAC_CFM (Body.num 0)
          |> define TARGET_RT_MAC_MACHO (Body.num 1)
    Except.ok t
  else if defined env CompilerSym.__MWERKS__ then
    if defined env CompilerSym.__POWERPC__ then
      Except.ok (rt_metrowerks_tail env
        (t |> define TARGET_RT_LITTLE_ENDIAN (Body.num 0)
           |> define TARGET_RT_BIG_ENDIAN (Body.num 1)))
    else if defined env CompilerSym.__INTEL__ then
      Except.ok (rt_metrowerks_tail env
        (t |> define TARGET_RT_LITTLE_ENDIAN (Body.num 1)
           |> define TARGET_RT_BIG_ENDIAN (Body.num 0)))
    else
      Except.error HeaderError.unknown_Metrowerks_CPU_type_rt
  else
    let t := if value t TARGET_CPU_PPC ≠ 0 ∨ value t TARGET_CPU_PPC64 ≠ 0 then
        t |> define TARGET_RT_BIG_ENDIAN (Body.num 1)
          |> define TARGET_RT_LITTLE_ENDIAN (Body.num 0)
      else
        t |> define TARGET_RT_BIG_ENDIAN (Body.num 0)
          |> define TARGET_RT_LITTLE_ENDIAN (Body.num 1)
    let t := if value t TARGET_CPU_PPC64 ≠ 0 ∨ value t TARGET_CPU_X86_64 ≠ 0 then
        define TARGET_RT_64_BIT (Body.num 1) t
      else
        define TARGET_RT_64_BIT (Body.num 0) t
    let t := if defined env CompilerSym.__MACH__ then
        t |> define TARGET_RT_MAC_MACHO (Body.num 1)
          |> define TARGET_RT_MAC_CFM (Body.num 0)
      else
        t |> define TARGET_RT_MAC_MACHO (Body.num 0)
          |> define TARGET_RT_MAC_CFM (Body.num 1)
    Except.ok t

/-- Lines 343-355: the `__is_target_arch` based definitions. -/
def cpu_by_is_target_arch (env : Env) (t : Table) : Except HeaderError Table :=
  if env.is_target_arch Arch.arm64 || env.is_target_arch Arch.arm64e
      || env.is_target_arch Arch.arm64_32 then
    Except.ok (define TARGET_CPU_ARM64 (Body.num 1) t)
  else if env.is_target_arch Arch.arm then
    Except.ok (define TARGET_CPU_ARM (Body.num 1) t)
  else if env.is_target_arch Arch.x86_64 then
    Except.ok (define TARGET_CPU_X86_64 (Body.num 1) t)
  else if env.is_target_arch Arch.i386 then
    Except.ok (define TARGET_CPU_X86 (Body.num 1) t)
  else
    Except.error HeaderError.unrecognized_arch

/-- Lines 360-409: the `#elif` and `#else` groups after line 342. -/
def cpu_by_compiler (env : Env) (t : Table) : Except HeaderError Table :=
  if apple_gcc env then
    if defined env CompilerSym.__ppc__ then
      Except.ok (define TARGET_CPU_PPC (Body.num 1) t)
    else if defined env CompilerSym.__ppc64__ then
      Except.ok (define TARGET_CPU_PPC64 (Body.num 1) t)
    else if defined env CompilerSym.__i386__ then
      Except.ok (define TARGET_CPU_X86 (Body.num 1) t)
    else if defined env CompilerSym.__x86_64__ then
      Except.ok (define TARGET_CPU_X86_64 (Body.num 1) t)
    else if defined env CompilerSym.__arm__ then
      Except.ok (define TARGET_CPU_ARM (Body.num 1) t)
    else if defined env CompilerSym.__arm64__ then
      Except.ok (define TARGET_CPU_ARM64 (Body.num 1) t)
    else
      Except.error HeaderError.unrecognized_GNU_C_compiler
  else if defined env CompilerSym.__MWERKS__ then
    if defined env CompilerSym.__POWERPC__ then
      Except.ok (define TARGET_CPU_PPC (Body.num 1) t)
    else if defined env CompilerSym.__INTEL__ then
      Except.ok (define TARGET_CPU_X86 (Body.num 1) t)
    else
      Except.error HeaderError.unknown_Metrowerks_CPU_type_cpu
  else
    if (t TARGET_CPU_PPC).isNone && (t TARGET_CPU_PPC64).isNone
        && (t TARGET_CPU_X86).isNone && (t TARGET_CPU_X86_64).isNone
        && (t TARGET_CPU_ARM).isNone && (t TARGET_CPU_ARM64).isNone then
      Except.error HeaderError.unknown_compiler
    else
      Except.ok t

/-- Lines 342-409: the `TARGET_CPU_*` definitions. -/
def cpu_section (env : Env) (t : Table) : Except HeaderError Table :=
  match has_is_target_arch env with
  | none => Except.error HeaderError.malformed_if_line_342
  | some true => cpu_by_is_target_arch env t
  | some false => cpu_by_compiler env t

/-- Lines 413-530: "Make sure all TARGET_OS_* and TARGET_CPU_* values are defined". -/
def defaults (t : Table) : Table :=
  t |> ifndef_define TARGET_OS_MAC (Body.num 0)
    |> ifndef_define TARGET_OS_OSX (Body.num 0)
    |> ifndef_define TARGET_OS_IPHONE (Body.num 0)
    |> ifndef_define TARGET_OS_IOS (Body.num 0)
    |> ifndef_define TARGET_OS_WATCH (Body.num 0)
    |> ifndef_define TARGET_OS_TV (Body.num 0)
    |> ifndef_define TARGET_OS_SIMULATOR (Body.num 0)
    |> ifndef_define TARGET_OS_EMBEDDED (Body.num 0)
    |> ifndef_define TARGET_OS_RTKIT (Body.num 0)
    |> ifndef_define TARGET_OS_MACCATALYST (Body.num 0)
    |> ifndef_define TARGET_OS_VISION (Body.num 0)
    |> ifndef_define TARGET_OS_UIKITFORMAC (Body.num 0)
    |> ifndef_define TARGET_OS_DRIVERKIT (Body.num 0)
    |> ifndef_define TARGET_OS_WIN32 (Body.num 0)
    |> ifndef_define TARGET_OS_WINDOWS (Body.num 0)
    |> ifndef_define TARGET_OS_LINUX (Body.num 0)
    |> ifndef_define TARGET_CPU_PPC (Body.num 0)
    |> ifndef_define TARGET_CPU_PPC64 (Body.num 0)
    |> ifndef_define TARGET_CPU_68K (Body.num 0)
    |> ifndef_define TARGET_CPU_X86 (Body.num 0)
    |> ifndef_define TARGET_CPU_X86_64 (Body.num 0)
    |> ifndef_define TARGET_CPU_ARM (Body.num 0)
    |> ifndef_define TARGET_CPU_ARM64 (Body.num 0)
    |> ifndef_define TARGET_CPU_MIPS (Body.num 0)
    |> ifndef_define TARGET_CPU_SPARC (Body.num 0)
    |> ifndef_define TARGET_CPU_ALPHA (Body.num 0)
    |> ifndef_define TARGET_ABI_USES_IOS_VALUES Body.abi_uses_ios_values
    |> ifndef_define TARGET_IPHONE_SIMULATOR (Body.same_as TARGET_OS_SIMULATOR)
    |> ifndef_define TARGET_OS_NANO (Body.same_as TARGET_OS_WATCH)

/-- The definitions in force before the first line of the header. -/
def initial (env : Env) : Table :=
  fun m => (env.predefined m).map Body.num

/-- The header, lines 38-532: the table of definitions after the last line,
or the first `#error` or rejected directive reached. -/
def header (env : Env) : Except HeaderError Table :=
  match os_section env (initial env) with
  | Except.error e => Except.error e
  | Except.ok t =>
    match rt_section env (define TARGET_OS_RTKIT (Body.num 0) t) with
    | Except.error e => Except.error e
    | Except.ok t =>
      match cpu_section env t with
      | Except.error e => Except.error e
      | Except.ok t => Except.ok (defaults t)

/-! ## The properties the header is checked against -/

/-- The names lines 140-263 can define. -/
def set_by_os_section : Ident → Bool
  | TARGET_OS_MAC | TARGET_OS_OSX | TARGET_OS_IPHONE | TARGET_OS_IOS | TARGET_OS_WATCH
  | TARGET_OS_TV | TARGET_OS_MACCATALYST | TARGET_OS_UIKITFORMAC | TARGET_OS_SIMULATOR
  | TARGET_OS_EMBEDDED | TARGET_OS_UNIX | TARGET_OS_VISION | TARGET_OS_DRIVERKIT
  | DYNAMIC_TARGETS_ENABLED => true
  | _ => false

/-- The names that start with `TARGET_OS_`. -/
def is_target_os_name : Ident → Bool
  | TARGET_OS_MAC | TARGET_OS_OSX | TARGET_OS_IPHONE | TARGET_OS_IOS
  | TARGET_OS_WATCH | TARGET_OS_TV | TARGET_OS_MACCATALYST | TARGET_OS_UIKITFORMAC
  | TARGET_OS_SIMULATOR | TARGET_OS_EMBEDDED | TARGET_OS_UNIX | TARGET_OS_VISION
  | TARGET_OS_DRIVERKIT | TARGET_OS_RTKIT | TARGET_OS_WIN32 | TARGET_OS_WINDOWS
  | TARGET_OS_LINUX | TARGET_OS_BRIDGE | TARGET_OS_NANO => true
  | _ => false

/-- The `define_target_os_macros` extension is absent: line 140 does not find
it. -/
def define_target_os_macros_absent (env : Env) : Prop :=
  no_define_target_os_macros env ≠ some false

/-- No `TARGET_OS_*` name is defined before the header is read. -/
def no_target_os_predefined (env : Env) : Prop :=
  ∀ m, is_target_os_name m = true → env.predefined m = none

/-- The ten `TARGET_CPU_*` names of lines 44-53. -/
def cpu_flags : List Ident :=
  [TARGET_CPU_PPC, TARGET_CPU_PPC64, TARGET_CPU_68K, TARGET_CPU_X86, TARGET_CPU_X86_64,
   TARGET_CPU_ARM, TARGET_CPU_ARM64, TARGET_CPU_MIPS, TARGET_CPU_SPARC, TARGET_CPU_ALPHA]

/-- No `TARGET_CPU_*` name is defined before the header is read. -/
def no_target_cpu_predefined (env : Env) : Prop :=
  ∀ c ∈ cpu_flags, env.predefined c = none

/-- Exactly one of the ten `TARGET_CPU_*` flags is `1` and the other nine are `0`. -/
def exactly_one_cpu (t : Table) : Prop :=
  ∃ c ∈ cpu_flags, t c = some (Body.num 1)
    ∧ ∀ d ∈ cpu_flags, d ≠ c → t d = some (Body.num 0)

/-- The last branch of lines 342-409 ("unknown compiler"). -/
def unknown_compiler_branch (env : Env) : Prop :=
  has_is_target_arch env ≠ some true ∧ apple_gcc env = false
    ∧ defined env CompilerSym.__MWERKS__ = false

/-- Exactly one of `TARGET_RT_LITTLE_ENDIAN` and `TARGET_RT_BIG_ENDIAN` is `1`
and the other is `0`. -/
def exactly_one_endian (t : Table) : Prop :=
  (t TARGET_RT_LITTLE_ENDIAN = some (Body.num 1)
      ∧ t TARGET_RT_BIG_ENDIAN = some (Body.num 0))
    ∨ (t TARGET_RT_LITTLE_ENDIAN = some (Body.num 0)
      ∧ t TARGET_RT_BIG_ENDIAN = some (Body.num 1))

/-- Claim C3, clause (a): Metrowerks (not Apple GCC) with neither `__POWERPC__`
nor `__INTEL__`. -/
def metrowerks_unknown_cpu (env : Env) : Prop :=
  apple_gcc env = false ∧ defined env CompilerSym.__MWERKS__ = true
    ∧ defined env CompilerSym.__POWERPC__ = false ∧ defined env CompilerSym.__INTEL__ = false

/-- Claim C3, clause (b): `__is_target_arch` is available and the target arch is
none of arm64, arm64e, arm64_32, arm, x86_64, i386. -/
def is_target_arch_unrecognized (env : Env) : Prop :=
  has_is_target_arch env = some true
    ∧ env.is_target_arch Arch.arm64 = false ∧ env.is_target_arch Arch.arm64e = false
    ∧ env.is_target_arch Arch.arm64_32 = false ∧ env.is_target_arch Arch.arm = false
    ∧ env.is_target_arch Arch.x86_64 = false ∧ env.is_target_arch Arch.i386 = false

/-- Claim C3, clause (c): no `__is_target_arch`, Apple GCC, and none of `__ppc__`,
`__ppc64__`, `__i386__`, `__x86_64__`, `__arm__`, `__arm64__`. -/
def apple_gcc_unrecognized (env : Env) : Prop :=
  has_is_target_arch env ≠ some true ∧ apple_gcc env = true
    ∧ defined env CompilerSym.__ppc__ = false ∧ defined env CompilerSym.__ppc64__ = false
    ∧ defined env CompilerSym.__i386__ = false ∧ defined env CompilerSym.__x86_64__ = false
    ∧ defined env CompilerSym.__arm__ = false ∧ defined env CompilerSym.__arm64__ = false

/-- Claim C3, clause (d): no `__is_target_arch`, neither Apple GCC nor Metrowerks,
and none of `TARGET_CPU_PPC`, `PPC64`, `X86`, `X86_64`, `ARM`, `ARM64` predefined. -/
def unknown_compiler_no_cpu (env : Env) : Prop :=
  has_is_target_arch env ≠ some true ∧ apple_gcc env = false
    ∧ defined env CompilerSym.__MWERKS__ = false
    ∧ env.predefined TARGET_CPU_PPC = none ∧ env.predefined TARGET_CPU_PPC64 = none
    ∧ env.predefined TARGET_CPU_X86 = none ∧ env.predefined TARGET_CPU_X86_64 = none
    ∧ env.predefined TARGET_CPU_ARM = none ∧ env.predefined TARGET_CPU_ARM64 = none

/-- Claim C3: the build environment cannot be classified. -/
def unclassifiable (env : Env) : Prop :=
  metrowerks_unknown_cpu env ∨ is_target_arch_unrecognized env
    ∨ apple_gcc_unrecognized env ∨ unknown_compiler_no_cpu env

/-- The nesting of lines 71-81 and 87-98 that claim C4 lists. -/
def respects_nesting (t : Table) : Prop :=
  (t TARGET_OS_OSX = some (Body.num 1) → t TARGET_OS_MAC = some (Body.num 1))
    ∧ (t TARGET_OS_IPHONE = some (Body.num 1) → t TARGET_OS_MAC = some (Body.num 1))
    ∧ (t TARGET_OS_DRIVERKIT = some (Body.num 1) → t TARGET_OS_MAC = some (Body.num 1))
    ∧ (t TARGET_OS_IOS = some (Body.num 1) → t TARGET_OS_IPHONE = some (Body.num 1))
    ∧ (t TARGET_OS_VISION = some (Body.num 1) → t TARGET_OS_IPHONE = some (Body.num 1))
    ∧ (t TARGET_OS_MACCATALYST = some (Body.num 1) → t TARGET_OS_IOS = some (Body.num 1))
    ∧ ¬ (t TARGET_OS_OSX = some (Body.num 1) ∧ t TARGET_OS_IPHONE = some (Body.num 1))

/-- The target of claim C7: one of the archs x86_64, arm64, arm64e, vendor apple,
os ios. -/
def apple_ios_target (env : Env) : Prop :=
  (env.is_target_arch Arch.x86_64 = true ∨ env.is_target_arch Arch.arm64 = true
      ∨ env.is_target_arch Arch.arm64e = true)
    ∧ env.is_target_vendor Vendor.apple = true ∧ env.is_target_os OS.ios = true

/-! ## Build environments used as examples -/

/-- What an Apple compiler of the GCC family predefines on a 64-bit little-endian
target, `cpu` being the name it predefines for the target's instruction set. -/
def apple_syms (cpu : CompilerSym) : CompilerSym → Option Int :=
  fun s =>
    if s = cpu then some 1
    else
      match s with
      | CompilerSym.__GNUC__ => some 4
      | CompilerSym.__APPLE_CC__ => some 6000
      | CompilerSym.__MACH__ => some 1
      | CompilerSym.__LP64__ => some 1
      | CompilerSym.__BYTE_ORDER__ => some 1234
      | CompilerSym.__ORDER_LITTLE_ENDIAN__ => some 1234
      | _ => none

/-- GCC for x86_64 macOS, nothing on the command line: `__has_builtin` and
`__has_extension` are defined, and there is neither `define_target_os_macros`
nor any `__is_target_*` operator. -/
def gcc_macos : Env where
  has_extension := some (fun _ => false)
  has_builtin := some (fun _ => false)
  is_target_arch := fun _ => false
  is_target_vendor := fun _ => false
  is_target_os := fun _ => false
  is_target_environment := fun _ => false
  sym := apple_syms CompilerSym.__x86_64__
  predefined := fun _ => none

/-- GCC 12 for x86_64 macOS, nothing on the command line: as `gcc_macos`, but
`__has_extension` is not defined (GCC has it from version 14 on). -/
def gcc12_macos : Env where
  has_extension := none
  has_builtin := some (fun _ => false)
  is_target_arch := fun _ => false
  is_target_vendor := fun _ => false
  is_target_os := fun _ => false
  is_target_environment := fun _ => false
  sym := apple_syms CompilerSym.__x86_64__
  predefined := fun _ => none

/-- CodeWarrior for PowerPC with the Mach-O runtime: `__MWERKS__`, `__POWERPC__`
and `__MACH__`; neither `__has_extension` nor `__has_builtin`. -/
def metrowerks_ppc : Env where
  has_extension := none
  has_builtin := none
  is_target_arch := fun _ => false
  is_target_vendor := fun _ => false
  is_target_os := fun _ => false
  is_target_environment := fun _ => false
  sym := fun s =>
    match s with
    | CompilerSym.__MWERKS__ => some 1
    | CompilerSym.__POWERPC__ => some 1
    | CompilerSym.__MACH__ => some 1
    | _ => none
  predefined := fun _ => none

/-- Apple clang without `define_target_os_macros`, with the four `__is_target_*`
operators, for the target `x86_64-apple-<os>-<environment>` (`none`: an os or
environment that the header does not test for). -/
def clang_x86_64 (os : Option OS) (environment : Option Environment)
    (predefined : Ident → Option Int) : Env where
  has_extension := some (fun _ => false)
  has_builtin := some (fun _ => true)
  is_target_arch := fun a => decide (a = Arch.x86_64)
  is_target_vendor := fun _ => true
  is_target_os := fun o => decide (some o = os)
  is_target_environment := fun e => decide (some e = environment)
  sym := apple_syms CompilerSym.__x86_64__
  predefined := predefined

/-- The same compiler for the target `arm64-apple-<os>-<environment>`. -/
def clang_arm64 (os : Option OS) (environment : Option Environment)
    (predefined : Ident → Option Int) : Env where
  has_extension := some (fun _ => false)
  has_builtin := some (fun _ => true)
  is_target_arch := fun a => decide (a = Arch.arm64)
  is_target_vendor := fun _ => true
  is_target_os := fun o => decide (some o = os)
  is_target_environment := fun e => decide (some e = environment)
  sym := apple_syms CompilerSym.__arm64__
  predefined := predefined

/-- A compiler the header does not know, such as GCC for x86_64 on another
system: `__GNUC__` without any of the Apple names, `__has_builtin` and
`__has_extension` defined, no `__is_target_*` operator; the command line is
`predefined`. -/
def unknown_compiler (predefined : Ident → Option Int) : Env where
  has_extension := some (fun _ => false)
  has_builtin := some (fun _ => false)
  is_target_arch := fun _ => false
  is_target_vendor := fun _ => false
  is_target_os := fun _ => false
  is_target_environment := fun _ => false
  sym := fun s =>
    match s with
    | CompilerSym.__GNUC__ => some 14
    | CompilerSym.__x86_64__ => some 1
    | CompilerSym.__LP64__ => some 1
    | CompilerSym.__BYTE_ORDER__ => some 1234
    | CompilerSym.__ORDER_LITTLE_ENDIAN__ => some 1234
    | _ => none
  predefined := predefined

/-- The command line `-DTARGET_CPU_MIPS=1`. -/
def predefine_cpu_mips : Ident → Option Int
  | TARGET_CPU_MIPS => some 1
  | _ => none

/-- The command line `-DTARGET_CPU_X86_64=1 -DTARGET_OS_UNIX=1`. -/
def predefine_x86_64_unix : Ident → Option Int
  | TARGET_CPU_X86_64 => some 1
  | TARGET_OS_UNIX => some 1
  | _ => none

/-- The command line `-DTARGET_CPU_X86_64=1`. -/
def predefine_cpu_x86_64 : Ident → Option Int
  | TARGET_CPU_X86_64 => some 1
  | _ => none

/-- The command line `-DTARGET_OS_OSX=1`. -/
def predefine_os_osx : Ident → Option Int
  | TARGET_OS_OSX => some 1
  | _ => none

/-- Nothing on the command line. -/
def nothing_predefined : Ident → Option Int := fun _ => none

instance (t : Table) : Decidable (exactly_one_cpu t) := by
  unfold exactly_one_cpu; infer_instance

instance (t : Table) : Decidable (exactly_one_endian t) := by
  unfold exactly_one_endian; infer_instance

instance (t : Table) : Decidable (respects_nesting t) := by
  unfold respects_nesting; infer_instance

instance (env : Env) : Decidable (define_target_os_macros_absent env) := by
  unfold define_target_os_macros_absent; infer_instance

instance (env : Env) : Decidable (unclassifiable env) := by
  unfold unclassifiable metrowerks_unknown_cpu is_target_arch_unrecognized
    apple_gcc_unrecognized unknown_compiler_no_cpu
  infer_instance

/-! ## Lookups in the tables the header builds -/

@[simp]
theorem define_apply (m : Ident) (b : Body) (t : Table) (n : Ident) :
    define m b t n = if n = m then some b else t n := rfl

@[simp]
theorem ifndef_define_apply (m : Ident) (b : Body) (t : Table) (n : Ident) :
    ifndef_define m b t n = if n = m then some ((t m).getD b) else t n := by
  unfold ifndef_define
  by_cases hn : n = m
  · subst hn
    cases t n <;> simp
  · cases t n <;> simp [hn]

/-- The definition of `ifndef_define` agrees with the directive read literally:
when `m` is not defined the table gets `#define m b`, otherwise it is unchanged. -/
theorem ifndef_define_eq (m : Ident) (b : Body) (t : Table) :
    ifndef_define m b t = match t m with
      | none => define m b t
      | some _ => t := by
  funext n
  rw [ifndef_define_apply]
  cases h : t m with
  | none => simp
  | some x =>
    by_cases hn : n = m
    · simp [hn, h]
    · simp [hn]

theorem value_eq (t : Table) (m : Ident) :
    value t m = match t m with
      | none => 0
      | some (Body.num v) => v
      | some (Body.same_as m') => eval 39 t m'
      | some Body.abi_uses_ios_values =>
        if eval 39 t TARGET_CPU_X86_64 = 0
            ∨ (eval 39 t TARGET_OS_IPHONE ≠ 0 ∧ eval 39 t TARGET_OS_MACCATALYST = 0)
        then 1 else 0 := rfl

theorem value_of_num (t : Table) (m : Ident) (v : Int) (h : t m = some (Body.num v)) :
    value t m = v := by
  rw [value_eq, h]

/-! ### The `__is_target_*` blocks, name by name -/

theorem dynamic_targets_MAC (env : Env) (t : Table) :
    dynamic_targets env t TARGET_OS_MAC
      = if has_target_builtins env && (macabi_target env || simulator_target env
            || xros_target env || exclavekit_target env || driverkit_target env)
        then some (Body.num 1) else t TARGET_OS_MAC := by
  unfold dynamic_targets macabi_block simulator_block xros_block exclavecore_block
    exclavekit_block driverkit_block xros_simulator_or_embedded
  cases has_target_builtins env <;> cases macabi_target env <;> cases simulator_target env <;>
    cases xros_target env <;> cases exclavecore_target env <;> cases exclavekit_target env <;>
    cases driverkit_target env <;> cases env.is_target_environment Environment.simulator <;>
    simp

theorem dynamic_targets_IPHONE (env : Env) (t : Table) :
    dynamic_targets env t TARGET_OS_IPHONE
      = if has_target_builtins env && (macabi_target env || simulator_target env || xros_target env)
        then some (Body.num 1) else t TARGET_OS_IPHONE := by
  unfold dynamic_targets macabi_block simulator_block xros_block exclavecore_block
    exclavekit_block driverkit_block xros_simulator_or_embedded
  cases has_target_builtins env <;> cases macabi_target env <;> cases simulator_target env <;>
    cases xros_target env <;> cases exclavecore_target env <;> cases exclavekit_target env <;>
    cases driverkit_target env <;> cases env.is_target_environment Environment.simulator <;>
    simp

theorem dynamic_targets_IOS (env : Env) (t : Table) :
    dynamic_targets env t TARGET_OS_IOS
      = if has_target_builtins env && (macabi_target env || simulator_target env)
        then some (Body.num 1) else t TARGET_OS_IOS := by
  unfold dynamic_targets macabi_block simulator_block xros_block exclavecore_block
    exclavekit_block driverkit_block xros_simulator_or_embedded
  cases has_target_builtins env <;> cases macabi_target env <;> cases simulator_target env <;>
    cases xros_target env <;> cases exclavecore_target env <;> cases exclavekit_target env <;>
    cases driverkit_target env <;> cases env.is_target_environment Environment.simulator <;>
    simp

theorem dynamic_targets_MACCATALYST (env : Env) (t : Table) :
    dynamic_targets env t TARGET_OS_MACCATALYST
      = if has_target_builtins env && (macabi_target env)
        then some (Body.num 1) else t TARGET_OS_MACCATALYST := by
  unfold dynamic_targets macabi_block simulator_block xros_block exclavecore_block
    exclavekit_block driverkit_block xros_simulator_or_embedded
  cases has_target_builtins env <;> cases macabi_target env <;> cases simulator_target env <;>
    cases xros_target env <;> cases exclavecore_target env <;> cases exclavekit_target env <;>
    cases driverkit_target env <;> cases env.is_target_environment Environment.simulator <;>
    simp

theorem dynamic_targets_VISION (env : Env) (t : Table) :
    dynamic_targets env t TARGET_OS_VISION
      = if has_target_builtins env && (xros_target env)
        then some (Body.num 1) else t TARGET_OS_VISION := by
  unfold dynamic_targets macabi_block simulator_block xros_block exclavecore_block
    exclavekit_block driverkit_block xros_simulator_or_embedded
  cases has_target_builtins env <;> cases macabi_target env <;> cases simulator_target env <;>
    cases xros_target env <;> cases exclavecore_target env <;> cases exclavekit_target env <;>
    cases driverkit_target env <;> cases env.is_target_environment Environment.simulator <;>
    simp

theorem dynamic_targets_DRIVERKIT (env : Env) (t : Table) :
    dynamic_targets env t TARGET_OS_DRIVERKIT
      = if has_target_builtins env && (driverkit_target env)
        then some (Body.num 1) else t TARGET_OS_DRIVERKIT := by
  unfold dynamic_targets macabi_block simulator_block xros_block exclavecore_block
    exclavekit_block driverkit_block xros_simulator_or_embedded
  cases has_target_builtins env <;> cases macabi_target env <;> cases simulator_target env <;>
    cases xros_target env <;> cases exclavecore_target env <;> cases exclavekit_target env <;>
    cases driverkit_target env <;> cases env.is_target_environment Environment.simulator <;>
    simp

theorem dynamic_targets_SIMULATOR (env : Env) (t : Table) :
    dynamic_targets env t TARGET_OS_SIMULATOR
      = if has_target_builtins env && (simulator_target env
            || (xros_target env && env.is_target_environment Environment.simulator))
        then some (Body.num 1) else t TARGET_OS_SIMULATOR := by
  unfold dynamic_targets macabi_block simulator_block xros_block exclavecore_block
    exclavekit_block driverkit_block xros_simulator_or_embedded
  cases has_target_builtins env <;> cases macabi_target env <;> cases simulator_target env <;>
    cases xros_target env <;> cases exclavecore_target env <;> cases exclavekit_target env <;>
    cases driverkit_target env <;> cases env.is_target_environment Environment.simulator <;>
    simp

theorem dynamic_targets_EMBEDDED (env : Env) (t : Table) :
    dynamic_targets env t TARGET_OS_EMBEDDED
      = if has_target_builtins env && (xros_target env && !env.is_target_environment Environment.simulator)
        then some (Body.num 1) else t TARGET_OS_EMBEDDED := by
  unfold dynamic_targets macabi_block simulator_block xros_block exclavecore_block
    exclavekit_block driverkit_block xros_simulator_or_embedded
  cases has_target_builtins env <;> cases macabi_target env <;> cases simulator_target env <;>
    cases xros_target env <;> cases exclavecore_target env <;> cases exclavekit_target env <;>
    cases driverkit_target env <;> cases env.is_target_environment Environment.simulator <;>
    simp

theorem dynamic_targets_DYNAMIC (env : Env) (t : Table) :
    dynamic_targets env t DYNAMIC_TARGETS_ENABLED
      = if has_target_builtins env && (macabi_target env || simulator_target env || xros_target env
            || exclavecore_target env || exclavekit_target env || driverkit_target env)
        then some (Body.num 1) else t DYNAMIC_TARGETS_ENABLED := by
  unfold dynamic_targets macabi_block simulator_block xros_block exclavecore_block
    exclavekit_block driverkit_block xros_simulator_or_embedded
  cases has_target_builtins env <;> cases macabi_target env <;> cases simulator_target env <;>
    cases xros_target env <;> cases exclavecore_target env <;> cases exclavekit_target env <;>
    cases driverkit_target env <;> cases env.is_target_environment Environment.simulator <;>
    simp

theorem dynamic_targets_OSX (env : Env) (t : Table) :
    dynamic_targets env t TARGET_OS_OSX = t TARGET_OS_OSX := by
  unfold dynamic_targets macabi_block simulator_block xros_block exclavecore_block
    exclavekit_block driverkit_block xros_simulator_or_embedded
  cases has_target_builtins env <;> cases macabi_target env <;> cases simulator_target env <;>
    cases xros_target env <;> cases exclavecore_target env <;> cases exclavekit_target env <;>
    cases driverkit_target env <;> cases env.is_target_environment Environment.simulator <;>
    simp

/-- Lines 230-262, looked up at one name. -/
theorem static_targets_apply (env : Env) (t : Table) (n : Ident) :
    static_targets env t n
      = if apple_gcc env then
          if value t DYNAMIC_TARGETS_ENABLED = 0 then
            (t |> define TARGET_OS_MAC (Body.num 1)
               |> define TARGET_OS_OSX (Body.num 1)
               |> define TARGET_OS_IPHONE (Body.num 0)
               |> define TARGET_OS_IOS (Body.num 0)
               |> define TARGET_OS_WATCH (Body.num 0)
               |> define TARGET_OS_TV (Body.num 0)
               |> define TARGET_OS_MACCATALYST (Body.num 0)
               |> define TARGET_OS_MACCATALYST (Body.num 0)
               |> ifndef_define TARGET_OS_UIKITFORMAC (Body.num 0)
               |> define TARGET_OS_SIMULATOR (Body.num 0)
               |> define TARGET_OS_EMBEDDED (Body.num 0)
               |> define TARGET_OS_UNIX (Body.num 0)) n
          else t n
        else if n = TARGET_OS_MAC then some (Body.num 1) else t n := by
  unfold static_targets
  split_ifs <;> simp [*]

/-- The value line 231 tests. -/
theorem dynamic_targets_enabled_value (env : Env) :
    value (ifndef_define DYNAMIC_TARGETS_ENABLED (Body.num 0)
        (dynamic_targets env (initial env))) DYNAMIC_TARGETS_ENABLED
      = if has_target_builtins env && (macabi_target env || simulator_target env
            || xros_target env || exclavecore_target env || exclavekit_target env
            || driverkit_target env)
        then 1 else (env.predefined DYNAMIC_TARGETS_ENABLED).getD 0 := by
  apply value_of_num
  rw [ifndef_define_apply, if_pos rfl, dynamic_targets_DYNAMIC]
  split_ifs
  · rfl
  · cases h : env.predefined DYNAMIC_TARGETS_ENABLED <;> simp [initial, h]

/-! ### Names the `TARGET_OS_*` lines never define -/

theorem macabi_block_frame (env : Env) (t : Table) (n : Ident)
    (hn : set_by_os_section n = false) : macabi_block env t n = t n := by
  unfold macabi_block
  split_ifs
  · cases n <;> simp [set_by_os_section] at hn ⊢
  · rfl

theorem simulator_block_frame (env : Env) (t : Table) (n : Ident)
    (hn : set_by_os_section n = false) : simulator_block env t n = t n := by
  unfold simulator_block
  split_ifs
  · cases n <;> simp [set_by_os_section] at hn ⊢
  · rfl

theorem xros_block_frame (env : Env) (t : Table) (n : Ident)
    (hn : set_by_os_section n = false) : xros_block env t n = t n := by
  unfold xros_block xros_simulator_or_embedded
  split_ifs
  · cases n <;> simp [set_by_os_section] at hn ⊢
  · cases n <;> simp [set_by_os_section] at hn ⊢
  · rfl

theorem exclavecore_block_frame (env : Env) (t : Table) (n : Ident)
    (hn : set_by_os_section n = false) : exclavecore_block env t n = t n := by
  unfold exclavecore_block
  split_ifs
  · cases n <;> simp [set_by_os_section] at hn ⊢
  · rfl

theorem exclavekit_block_frame (env : Env) (t : Table) (n : Ident)
    (hn : set_by_os_section n = false) : exclavekit_block env t n = t n := by
  unfold exclavekit_block
  split_ifs
  · cases n <;> simp [set_by_os_section] at hn ⊢
  · rfl

theorem driverkit_block_frame (env : Env) (t : Table) (n : Ident)
    (hn : set_by_os_section n = false) : driverkit_block env t n = t n := by
  unfold driverkit_block
  split_ifs
  · cases n <;> simp [set_by_os_section] at hn ⊢
  · rfl

theorem dynamic_targets_frame (env : Env) (t : Table) (n : Ident)
    (hn : set_by_os_section n = false) : dynamic_targets env t n = t n := by
  unfold dynamic_targets
  split_ifs
  · simp only [driverkit_block_frame _ _ _ hn, exclavekit_block_frame _ _ _ hn,
      exclavecore_block_frame _ _ _ hn, xros_block_frame _ _ _ hn,
      simulator_block_frame _ _ _ hn, macabi_block_frame _ _ _ hn]
  · rfl

theorem static_targets_frame (env : Env) (t : Table) (n : Ident)
    (hn : set_by_os_section n = false) : static_targets env t n = t n := by
  unfold static_targets
  split_ifs <;> first | rfl | (cases n <;> simp [set_by_os_section] at hn ⊢)

theorem os_body_frame (env : Env) (t : Table) (n : Ident)
    (hn : set_by_os_section n = false) : os_body env t n = t n := by
  unfold os_body
  have hd : n ≠ DYNAMIC_TARGETS_ENABLED := by
    rintro rfl; simp [set_by_os_section] at hn
  simp only [static_targets_frame _ _ _ hn, ifndef_define_apply, if_neg hd,
    dynamic_targets_frame _ _ _ hn]

/-- Line 140 accepted: the group of lines 141-262 is taken or skipped. -/
theorem os_section_ok (env : Env) (t t1 : Table) (h : os_section env t = Except.ok t1) :
    (no_define_target_os_macros env = some true ∧ t1 = os_body env t)
      ∨ (no_define_target_os_macros env = some false ∧ t1 = t) := by
  unfold os_section at h
  cases hx : no_define_target_os_macros env with
  | none => simp [hx] at h
  | some b =>
    cases b
    · simp only [hx, Except.ok.injEq] at h
      exact Or.inr ⟨rfl, h.symm⟩
    · simp only [hx, Except.ok.injEq] at h
      exact Or.inl ⟨rfl, h.symm⟩

theorem os_section_frame (env : Env) (t t1 : Table) (h : os_section env t = Except.ok t1)
    (n : Ident) (hn : set_by_os_section n = false) : t1 n = t n := by
  rcases os_section_ok env t t1 h with ⟨-, rfl⟩ | ⟨-, rfl⟩
  · exact os_body_frame env t n hn
  · rfl

theorem cpu_section_eq (env : Env) (t : Table) (b : Bool)
    (ha : has_is_target_arch env = some b) :
    cpu_section env t = if b then cpu_by_is_target_arch env t else cpu_by_compiler env t := by
  unfold cpu_section
  rw [ha]
  cases b <;> rfl

/-! ### What the later sections leave alone -/

theorem rt_section_frame (env : Env) (t t' : Table) (h : rt_section env t = Except.ok t')
    (n : Ident) (h1 : n ≠ TARGET_RT_LITTLE_ENDIAN) (h2 : n ≠ TARGET_RT_BIG_ENDIAN)
    (h3 : n ≠ TARGET_RT_64_BIT) (h4 : n ≠ TARGET_RT_MAC_CFM) (h5 : n ≠ TARGET_RT_MAC_MACHO) :
    t' n = t n := by
  unfold rt_section at h
  split_ifs at h <;> simp only [Except.ok.injEq] at h <;> subst h <;>
    (try simp only [rt_metrowerks_tail]) <;> (try split_ifs) <;> simp [*]

theorem cpu_section_frame (env : Env) (t t' : Table) (h : cpu_section env t = Except.ok t')
    (n : Ident) (h1 : n ≠ TARGET_CPU_PPC) (h2 : n ≠ TARGET_CPU_PPC64)
    (h3 : n ≠ TARGET_CPU_X86) (h4 : n ≠ TARGET_CPU_X86_64) (h5 : n ≠ TARGET_CPU_ARM)
    (h6 : n ≠ TARGET_CPU_ARM64) :
    t' n = t n := by
  cases ha : has_is_target_arch env with
  | none =>
    unfold cpu_section at h
    simp [ha] at h
  | some b =>
    rw [cpu_section_eq env t b ha] at h
    unfold cpu_by_is_target_arch cpu_by_compiler at h
    split_ifs at h <;> simp only [Except.ok.injEq] at h <;> subst h <;> simp [*]

theorem header_ok (env : Env) (t : Table) (h : header env = Except.ok t) :
    ∃ t1 t3 t4, os_section env (initial env) = Except.ok t1
      ∧ rt_section env (define TARGET_OS_RTKIT (Body.num 0) t1) = Except.ok t3
      ∧ cpu_section env t3 = Except.ok t4 ∧ t = defaults t4 := by
  unfold header at h
  split at h
  · simp at h
  · rename_i t1 h1
    split at h
    · simp at h
    · rename_i t3 h3
      split at h
      · simp at h
      · rename_i t4 h4
        simp only [Except.ok.injEq] at h
        exact ⟨t1, t3, t4, h1, h3, h4, h.symm⟩

/-- With the extension absent, a header that is processed to the end has taken
the group of lines 141-262. -/
theorem os_section_of_absent (env : Env) (t : Table) (h : header env = Except.ok t)
    (habs : define_target_os_macros_absent env) :
    os_section env (initial env) = Except.ok (os_body env (initial env)) := by
  obtain ⟨t1, t3, t4, h1, -, -, -⟩ := header_ok env t h
  rcases os_section_ok env _ t1 h1 with ⟨-, rfl⟩ | ⟨hx, -⟩
  · exact h1
  · exact absurd hx habs

/-- A `TARGET_OS_*` flag of lines 414-464 ends as lines 140-263 left it, `0` when
they left it undefined. -/
theorem final_os_flag (env : Env) (t : Table) (h : header env = Except.ok t)
    (habs : define_target_os_macros_absent env) (m : Ident)
    (hm : m ∈ [TARGET_OS_MAC, TARGET_OS_OSX, TARGET_OS_IPHONE, TARGET_OS_IOS,
      TARGET_OS_WATCH, TARGET_OS_TV, TARGET_OS_SIMULATOR, TARGET_OS_EMBEDDED,
      TARGET_OS_MACCATALYST, TARGET_OS_VISION, TARGET_OS_UIKITFORMAC,
      TARGET_OS_DRIVERKIT]) :
    t m = some ((os_body env (initial env) m).getD (Body.num 0)) := by
  have hos := os_section_of_absent env t h habs
  obtain ⟨t1, t3, t4, h1, h3, h4, rfl⟩ := header_ok env t h
  rw [hos, Except.ok.injEq] at h1
  subst h1
  have e4 : t4 m = t3 m := by
    apply cpu_section_frame env t3 t4 h4 <;> (simp at hm; rcases hm with
      rfl | rfl | rfl | rfl | rfl | rfl | rfl | rfl | rfl | rfl | rfl | rfl) <;> simp
  have e3 : t3 m = os_body env (initial env) m := by
    rw [rt_section_frame env _ t3 h3 m, define_apply, if_neg] <;>
      (simp at hm; rcases hm with
        rfl | rfl | rfl | rfl | rfl | rfl | rfl | rfl | rfl | rfl | rfl | rfl) <;> simp
  rw [← e3, ← e4]
  simp at hm
  rcases hm with rfl | rfl | rfl | rfl | rfl | rfl | rfl | rfl | rfl | rfl | rfl | rfl <;>
    simp [defaults]

set_option maxHeartbeats 4000000 in
theorem os_nesting (env : Env) (hpre : no_target_os_predefined env) :
    respects_nesting (fun m => some ((os_body env (initial env) m).getD (Body.num 0))) := by
  have p1 : initial env TARGET_OS_MAC = none := by simp [initial, hpre TARGET_OS_MAC rfl]
  have p2 : initial env TARGET_OS_OSX = none := by simp [initial, hpre TARGET_OS_OSX rfl]
  have p3 : initial env TARGET_OS_IPHONE = none := by
    simp [initial, hpre TARGET_OS_IPHONE rfl]
  have p4 : initial env TARGET_OS_IOS = none := by simp [initial, hpre TARGET_OS_IOS rfl]
  have p5 : initial env TARGET_OS_MACCATALYST = none := by
    simp [initial, hpre TARGET_OS_MACCATALYST rfl]
  have p6 : initial env TARGET_OS_VISION = none := by
    simp [initial, hpre TARGET_OS_VISION rfl]
  have p7 : initial env TARGET_OS_DRIVERKIT = none := by
    simp [initial, hpre TARGET_OS_DRIVERKIT rfl]
  simp only [respects_nesting, os_body, static_targets_apply,
    dynamic_targets_enabled_value, define_apply, ifndef_define_apply, reduceCtorEq,
    if_false, dynamic_targets_MAC,
    dynamic_targets_OSX, dynamic_targets_IPHONE, dynamic_targets_IOS,
    dynamic_targets_MACCATALYST, dynamic_targets_VISION, dynamic_targets_DRIVERKIT,
    p1, p2, p3, p4, p5, p6, p7]
  generalize (env.predefined DYNAMIC_TARGETS_ENABLED).getD 0 = pd
  generalize has_target_builtins env = b
  generalize macabi_target env = m
  generalize simulator_target env = s
  generalize xros_target env = x
  generalize exclavecore_target env = c
  generalize exclavekit_target env = k
  generalize driverkit_target env = d
  generalize apple_gcc env = a
  cases b <;> cases m <;> cases s <;> cases x <;> cases c <;> cases k <;> cases d <;>
    cases a <;> simp <;> split_ifs <;> simp_all

theorem simulator_target_environment (env : Env) (h : simulator_target env = true) :
    env.is_target_environment Environment.simulator = true := by
  unfold simulator_target at h
  simp only [Bool.and_eq_true] at h
  exact h.2

set_option maxHeartbeats 4000000 in
theorem os_simulator_embedded (env : Env) (hpre : no_target_os_predefined env) :
    ¬ (some ((os_body env (initial env) TARGET_OS_SIMULATOR).getD (Body.num 0))
          = some (Body.num 1)
        ∧ some ((os_body env (initial env) TARGET_OS_EMBEDDED).getD (Body.num 0))
          = some (Body.num 1)) := by
  have p1 : initial env TARGET_OS_SIMULATOR = none := by
    simp [initial, hpre TARGET_OS_SIMULATOR rfl]
  have p2 : initial env TARGET_OS_EMBEDDED = none := by
    simp [initial, hpre TARGET_OS_EMBEDDED rfl]
  have hs := simulator_target_environment env
  simp only [os_body, static_targets_apply,
    dynamic_targets_enabled_value, define_apply, ifndef_define_apply, reduceCtorEq,
    if_false, dynamic_targets_SIMULATOR, dynamic_targets_EMBEDDED, p1, p2]
  generalize (env.predefined DYNAMIC_TARGETS_ENABLED).getD 0 = pd
  generalize has_target_builtins env = b
  generalize macabi_target env = m
  generalize simulator_target env = s at hs ⊢
  generalize xros_target env = x
  generalize env.is_target_environment Environment.simulator = xs at hs ⊢
  generalize exclavecore_target env = c
  generalize exclavekit_target env = k
  generalize driverkit_target env = d
  generalize apple_gcc env = a
  cases b <;> cases m <;> cases s <;> cases x <;> cases c <;> cases k <;> cases d <;>
    cases a <;> cases xs <;> simp at hs ⊢ <;> split_ifs <;> simp_all

/-- A `TARGET_CPU_*` flag ends as the `TARGET_CPU_*` lines left it, `0` when they
left it undefined. -/
theorem final_cpu_flag (t4 : Table) (c : Ident) (hc : c ∈ cpu_flags) :
    defaults t4 c = some ((t4 c).getD (Body.num 0)) := by
  simp [cpu_flags] at hc
  rcases hc with rfl | rfl | rfl | rfl | rfl | rfl | rfl | rfl | rfl | rfl <;>
    simp [defaults]

/-- The table the `TARGET_CPU_*` lines start from: for a name that neither
the `TARGET_OS_*` lines nor the `TARGET_RT_*` lines define it is the command line's. -/
theorem before_cpu_section (env : Env) (t1 t3 : Table)
    (h1 : os_section env (initial env) = Except.ok t1)
    (h : rt_section env (define TARGET_OS_RTKIT (Body.num 0) t1) = Except.ok t3)
    (n : Ident) (hc : n ∈ cpu_flags) :
    t3 n = (env.predefined n).map Body.num := by
  simp [cpu_flags] at hc
  rw [rt_section_frame env _ t3 h n, define_apply, if_neg,
    os_section_frame env _ t1 h1 n] <;>
    first
    | rfl
    | (rcases hc with rfl | rfl | rfl | rfl | rfl | rfl | rfl | rfl | rfl | rfl <;>
        simp [set_by_os_section])

/-- With the extension absent, `DYNAMIC_TARGETS_ENABLED` ends as lines 140-263
left it. -/
theorem final_dynamic_targets_enabled (env : Env) (t : Table)
    (h : header env = Except.ok t) (habs : define_target_os_macros_absent env) :
    t DYNAMIC_TARGETS_ENABLED = os_body env (initial env) DYNAMIC_TARGETS_ENABLED := by
  have hos := os_section_of_absent env t h habs
  obtain ⟨t1, t3, t4, h1, h3, h4, rfl⟩ := header_ok env t h
  rw [hos, Except.ok.injEq] at h1
  subst h1
  have e4 : t4 DYNAMIC_TARGETS_ENABLED = t3 DYNAMIC_TARGETS_ENABLED := by
    apply cpu_section_frame env t3 t4 h4 <;> simp
  have e3 : t3 DYNAMIC_TARGETS_ENABLED
      = os_body env (initial env) DYNAMIC_TARGETS_ENABLED := by
    rw [rt_section_frame env _ t3 h3 DYNAMIC_TARGETS_ENABLED, define_apply, if_neg] <;> simp
  rw [← e3, ← e4]
  simp [defaults]

theorem macabi_target_of (env : Env) (h : apple_ios_target env)
    (he : env.is_target_environment Environment.macabi = true) :
    macabi_target env = true := by
  obtain ⟨ha, hv, ho⟩ := h
  unfold macabi_target
  rcases ha with ha | ha | ha <;> simp [ha, hv, ho, he]

theorem simulator_target_of (env : Env) (h : apple_ios_target env)
    (he : env.is_target_environment Environment.simulator = true) :
    simulator_target env = true := by
  obtain ⟨ha, hv, ho⟩ := h
  unfold simulator_target
  rcases ha with ha | ha | ha <;> simp [ha, hv, ho, he]

/-- What lines 141-262 leave for a `macabi` target. -/
theorem os_body_macabi (env : Env)
    (hb : has_target_builtins env = true) (hm : macabi_target env = true) :
    os_body env (initial env) TARGET_OS_MAC = some (Body.num 1)
      ∧ os_body env (initial env) TARGET_OS_IPHONE = some (Body.num 1)
      ∧ os_body env (initial env) TARGET_OS_IOS = some (Body.num 1)
      ∧ os_body env (initial env) TARGET_OS_MACCATALYST = some (Body.num 1)
      ∧ os_body env (initial env) DYNAMIC_TARGETS_ENABLED = some (Body.num 1)
      ∧ os_body env (initial env) TARGET_OS_OSX = initial env TARGET_OS_OSX := by
  simp only [os_body, static_targets_apply,
    dynamic_targets_enabled_value, define_apply, ifndef_define_apply, reduceCtorEq,
    if_false, dynamic_targets_MAC, dynamic_targets_IPHONE, dynamic_targets_IOS,
    dynamic_targets_MACCATALYST, dynamic_targets_DYNAMIC, dynamic_targets_OSX, hb, hm]
  cases apple_gcc env <;> simp

/-- What lines 141-262 leave for a `simulator` target. -/
theorem os_body_simulator (env : Env)
    (hb : has_target_builtins env = true) (hs : simulator_target env = true) :
    os_body env (initial env) TARGET_OS_MAC = some (Body.num 1)
      ∧ os_body env (initial env) TARGET_OS_IPHONE = some (Body.num 1)
      ∧ os_body env (initial env) TARGET_OS_IOS = some (Body.num 1)
      ∧ os_body env (initial env) TARGET_OS_SIMULATOR = some (Body.num 1)
      ∧ os_body env (initial env) DYNAMIC_TARGETS_ENABLED = some (Body.num 1)
      ∧ os_body env (initial env) TARGET_OS_OSX = initial env TARGET_OS_OSX := by
  simp only [os_body, static_targets_apply,
    dynamic_targets_enabled_value, define_apply, ifndef_define_apply, reduceCtorEq,
    if_false, dynamic_targets_MAC, dynamic_targets_IPHONE, dynamic_targets_IOS,
    dynamic_targets_SIMULATOR, dynamic_targets_DYNAMIC, dynamic_targets_OSX, hb, hs]
  cases apple_gcc env <;> simp

theorem has_is_target_arch_of (env : Env) (hb : has_target_builtins env = true) :
    has_is_target_arch env = some true := by
  unfold has_target_builtins at hb
  unfold has_is_target_arch
  cases hf : env.has_builtin with
  | none => simp [hf] at hb
  | some f =>
    simp only [hf, Bool.and_eq_true] at hb
    simp [hb.1.1.1]

/-! ### Where the `#error` lines are reached -/

theorem rt_section_error_iff (env : Env) (t : Table) :
    (∃ e, rt_section env t = Except.error e) ↔ metrowerks_unknown_cpu env := by
  unfold rt_section metrowerks_unknown_cpu
  split_ifs <;> simp_all

/-- The `TARGET_CPU_*` lines when line 342 is accepted with the answer `b`. -/
theorem cpu_section_error_iff (env : Env) (t : Table) (b : Bool)
    (ha : has_is_target_arch env = some b)
    (ht : ∀ n ∈ cpu_flags, t n = (env.predefined n).map Body.num) :
    (∃ e, cpu_section env t = Except.error e) ↔
      (is_target_arch_unrecognized env ∨ apple_gcc_unrecognized env
        ∨ (has_is_target_arch env ≠ some true ∧ apple_gcc env = false
            ∧ defined env CompilerSym.__MWERKS__ = true
            ∧ defined env CompilerSym.__POWERPC__ = false
            ∧ defined env CompilerSym.__INTEL__ = false)
        ∨ unknown_compiler_no_cpu env) := by
  have e1 := ht TARGET_CPU_PPC (by simp [cpu_flags])
  have e2 := ht TARGET_CPU_PPC64 (by simp [cpu_flags])
  have e3 := ht TARGET_CPU_X86 (by simp [cpu_flags])
  have e4 := ht TARGET_CPU_X86_64 (by simp [cpu_flags])
  have e5 := ht TARGET_CPU_ARM (by simp [cpu_flags])
  have e6 := ht TARGET_CPU_ARM64 (by simp [cpu_flags])
  rw [cpu_section_eq env t b ha]
  unfold is_target_arch_unrecognized apple_gcc_unrecognized unknown_compiler_no_cpu
  rw [ha]
  clear ht
  cases b
  · unfold cpu_by_compiler
    rw [e1, e2, e3, e4, e5, e6]
    simp only [Bool.false_eq_true, if_false]
    split_ifs <;> simp_all
  · unfold cpu_by_is_target_arch
    simp only [if_true]
    split_ifs <;> simp_all
    intros
    simp_all

/-- When lines 140 and 342 are accepted, an `#error` is reached exactly in the
cases (a) to (d). -/
theorem header_error_iff (env : Env) (hx : no_define_target_os_macros env ≠ none)
    (hb : has_is_target_arch env ≠ none) :
    (∃ e, header env = Except.error e) ↔ unclassifiable env := by
  obtain ⟨t1, h1⟩ : ∃ t1, os_section env (initial env) = Except.ok t1 := by
    unfold os_section
    cases hx' : no_define_target_os_macros env with
    | none => exact absurd hx' hx
    | some b => cases b <;> exact ⟨_, rfl⟩
  obtain ⟨b, ha⟩ : ∃ b, has_is_target_arch env = some b := by
    cases ha : has_is_target_arch env with
    | none => exact absurd ha hb
    | some b => exact ⟨b, rfl⟩
  have hrt := rt_section_error_iff env (define TARGET_OS_RTKIT (Body.num 0) t1)
  unfold header unclassifiable
  simp only [h1]
  cases hr : rt_section env (define TARGET_OS_RTKIT (Body.num 0) t1) with
  | error e =>
    have hm : metrowerks_unknown_cpu env := hrt.mp ⟨e, hr⟩
    simp [hm]
  | ok t3 =>
    have hna : ¬ metrowerks_unknown_cpu env := by
      intro hm
      obtain ⟨e, he⟩ := hrt.mpr hm
      rw [hr] at he
      cases he
    have hcpu := cpu_section_error_iff env t3 b ha (before_cpu_section env t1 t3 h1 hr)
    have hnm : ¬ (has_is_target_arch env ≠ some true ∧ apple_gcc env = false
        ∧ defined env CompilerSym.__MWERKS__ = true
        ∧ defined env CompilerSym.__POWERPC__ = false
        ∧ defined env CompilerSym.__INTEL__ = false) := by
      rintro ⟨-, h2, h3, h4, h5⟩
      exact hna ⟨h2, h3, h4, h5⟩
    cases hc : cpu_section env t3 with
    | error e =>
      have := hcpu.mp ⟨e, hc⟩
      simp only [hnm, false_or] at this
      simp only [hc]
      exact ⟨fun _ => Or.inr this, fun _ => ⟨e, rfl⟩⟩
    | ok t4 =>
      have hne : ¬ ∃ e, cpu_section env t3 = Except.error e := by
        rintro ⟨e, he⟩
        rw [hc] at he
        cases he
      rw [hcpu] at hne
      simp only [hc, reduceCtorEq, exists_false, false_iff]
      rintro (hm | hu | hc' | hd)
      · exact hna hm
      · exact hne (Or.inl hu)
      · exact hne (Or.inr (Or.inl hc'))
      · exact hne (Or.inr (Or.inr (Or.inr hd)))

theorem header_ok_iff (env : Env) (hx : no_define_target_os_macros env ≠ none)
    (hb : has_is_target_arch env ≠ none) :
    (∃ t, header env = Except.ok t) ↔ ¬ unclassifiable env := by
  rw [← header_error_iff env hx hb]
  cases h : header env with
  | error e => simp
  | ok t => simp

theorem rt_section_endian (env : Env) (t t' : Table) (h : rt_section env t = Except.ok t') :
    exactly_one_endian t' := by
  unfold rt_section at h
  unfold exactly_one_endian
  split_ifs at h <;> simp only [Except.ok.injEq] at h <;> subst h <;>
    (try simp only [rt_metrowerks_tail]) <;> (try split_ifs) <;> simp

/-! ### The `TARGET_CPU_*` lines -/

set_option maxHeartbeats 1000000 in
theorem cpu_section_exactly_one (env : Env) (t3 t4 : Table)
    (h4 : cpu_section env t3 = Except.ok t4) (q : ∀ c ∈ cpu_flags, t3 c = none) :
    exactly_one_cpu (defaults t4) := by
  have q1 := q TARGET_CPU_PPC (by simp [cpu_flags])
  have q2 := q TARGET_CPU_PPC64 (by simp [cpu_flags])
  have q3 := q TARGET_CPU_68K (by simp [cpu_flags])
  have q4 := q TARGET_CPU_X86 (by simp [cpu_flags])
  have q5 := q TARGET_CPU_X86_64 (by simp [cpu_flags])
  have q6 := q TARGET_CPU_ARM (by simp [cpu_flags])
  have q7 := q TARGET_CPU_ARM64 (by simp [cpu_flags])
  have q8 := q TARGET_CPU_MIPS (by simp [cpu_flags])
  have q9 := q TARGET_CPU_SPARC (by simp [cpu_flags])
  have q10 := q TARGET_CPU_ALPHA (by simp [cpu_flags])
  clear q
  cases ha : has_is_target_arch env with
  | none =>
    unfold cpu_section at h4
    simp [ha] at h4
  | some b =>
    rw [cpu_section_eq env t3 b ha] at h4
    unfold cpu_by_is_target_arch cpu_by_compiler at h4
    rw [q1, q2, q4, q5, q6, q7] at h4
    simp only [Option.isNone_none, Bool.and_self, if_true] at h4
    split_ifs at h4 <;> simp only [Except.ok.injEq] at h4 <;> subst h4 <;>
      simp [exactly_one_cpu, cpu_flags, defaults, q1, q2, q3, q4, q5, q6, q7, q8, q9, q10]

theorem cpu_section_unknown (env : Env) (t3 t4 : Table)
    (h4 : cpu_section env t3 = Except.ok t4) (hu : unknown_compiler_branch env) :
    t4 = t3 := by
  obtain ⟨u1, u2, u3⟩ := hu
  cases ha : has_is_target_arch env with
  | none =>
    unfold cpu_section at h4
    simp [ha] at h4
  | some b =>
    cases b
    · rw [cpu_section_eq env t3 false ha] at h4
      unfold cpu_by_compiler at h4
      rw [u2, u3] at h4
      simp only [Bool.false_eq_true, if_false] at h4
      split_ifs at h4
      simp only [Except.ok.injEq] at h4
      exact h4.symm
    · exact absurd ha u1

/-! ## The claims -/

/-- C1, as amended: in every build environment in which the header is processed
without reaching an `#error` and no `TARGET_CPU_*` flag is predefined, exactly one
of the ten `TARGET_CPU_*` flags ends as `1` and the other nine end as `0`. In the
unknown-compiler branch, which is processed to the end only when such a flag is
predefined, every flag ends with its predefined value, and as `0` when it has
none. -/
theorem cpu_exactly_one (env : Env) (t : Table) (h : header env = Except.ok t) :
    (no_target_cpu_predefined env → exactly_one_cpu t)
      ∧ (unknown_compiler_branch env →
          ∀ c ∈ cpu_flags, t c = some (Body.num ((env.predefined c).getD 0))) := by
  obtain ⟨t1, t3, t4, h1, h3, h4, rfl⟩ := header_ok env t h
  have hb := before_cpu_section env t1 t3 h1 h3
  constructor
  · intro hpre
    apply cpu_section_exactly_one env t3 t4 h4
    intro c hc
    rw [hb c hc, hpre c hc]
    rfl
  · intro hu c hc
    rw [final_cpu_flag t4 c hc, cpu_section_unknown env t3 t4 h4 hu, hb c hc]
    cases env.predefined c <;> rfl

/-- Witness of C1 as amended: GCC for x86_64 macOS with nothing predefined
ends with `TARGET_CPU_X86_64` as the one flag that is `1`. -/
theorem cpu_exactly_one_witness :
    ∃ t, header gcc_macos = Except.ok t ∧ no_target_cpu_predefined gcc_macos
      ∧ exactly_one_cpu t ∧ t TARGET_CPU_X86_64 = some (Body.num 1) :=
  ⟨_, rfl, fun _ _ => rfl,
    (cpu_exactly_one gcc_macos _ rfl).1 (fun _ _ => rfl), by decide⟩

/-- Counterexample to C1 as stated: clang for x86_64 macOS with
`-DTARGET_CPU_MIPS=1` on the command line, the definition the header's comment
suggests, is processed to the end with both `TARGET_CPU_X86_64` and
`TARGET_CPU_MIPS` equal to `1`. -/
theorem cpu_exactly_one_counterexample :
    ∃ t, header (clang_x86_64 none none predefine_cpu_mips) = Except.ok t
      ∧ t TARGET_CPU_X86_64 = some (Body.num 1) ∧ t TARGET_CPU_MIPS = some (Body.num 1)
      ∧ ¬ exactly_one_cpu t :=
  ⟨_, rfl, by decide, by decide, by decide⟩

/-- C2: in every build environment in which the header is processed without
reaching an `#error`, exactly one of `TARGET_RT_LITTLE_ENDIAN` and
`TARGET_RT_BIG_ENDIAN` is `1` and the other is `0`, in each of the three compiler
branches of lines 271-337. -/
theorem endian_exactly_one (env : Env) (t : Table) (h : header env = Except.ok t) :
    exactly_one_endian t := by
  obtain ⟨t1, t3, t4, -, h3, h4, rfl⟩ := header_ok env t h
  have e3 := rt_section_endian env _ t3 h3
  have l4 : t4 TARGET_RT_LITTLE_ENDIAN = t3 TARGET_RT_LITTLE_ENDIAN := by
    apply cpu_section_frame env t3 t4 h4 <;> simp
  have b4 : t4 TARGET_RT_BIG_ENDIAN = t3 TARGET_RT_BIG_ENDIAN := by
    apply cpu_section_frame env t3 t4 h4 <;> simp
  unfold exactly_one_endian at e3 ⊢
  have l5 : defaults t4 TARGET_RT_LITTLE_ENDIAN = t4 TARGET_RT_LITTLE_ENDIAN := by
    simp [defaults]
  have b5 : defaults t4 TARGET_RT_BIG_ENDIAN = t4 TARGET_RT_BIG_ENDIAN := by
    simp [defaults]
  rw [l5, b5, l4, b4]
  exact e3

/-- Witness of C2: GCC for x86_64 macOS is processed to the end and is
little-endian. -/
theorem endian_exactly_one_witness :
    ∃ t, header gcc_macos = Except.ok t ∧ exactly_one_endian t
      ∧ t TARGET_RT_LITTLE_ENDIAN = some (Body.num 1) :=
  ⟨_, rfl, endian_exactly_one gcc_macos _ rfl, by decide⟩

/-- C3, at the failing inputs: GCC 12 for x86_64 macOS, and CodeWarrior for
PowerPC, are in none of the cases (a) to (d), yet the header is not processed
to the end: neither defines `__has_extension`, and line 140 is rejected. -/
theorem rejected_outside_cases_a_to_d :
    (¬ unclassifiable gcc12_macos
        ∧ header gcc12_macos = Except.error HeaderError.malformed_if_line_140)
      ∧ (¬ unclassifiable metrowerks_ppc
        ∧ header metrowerks_ppc = Except.error HeaderError.malformed_if_line_140) :=
  ⟨⟨by decide, rfl⟩, ⟨by decide, rfl⟩⟩

/-- C4: in every build environment processed without error, with the
`define_target_os_macros` extension absent and no `TARGET_OS_*` predefined, the
final flags respect the documented nesting: `TARGET_OS_OSX`, `TARGET_OS_IPHONE`
and `TARGET_OS_DRIVERKIT` each imply `TARGET_OS_MAC`; `TARGET_OS_IOS` and
`TARGET_OS_VISION` each imply `TARGET_OS_IPHONE`; `TARGET_OS_MACCATALYST` implies
`TARGET_OS_IOS`; and `TARGET_OS_OSX` and `TARGET_OS_IPHONE` are never both `1`. -/
theorem os_flags_respect_nesting (env : Env) (t : Table) (h : header env = Except.ok t)
    (hext : define_target_os_macros_absent env) (hpre : no_target_os_predefined env) :
    respects_nesting t := by
  have hn := os_nesting env hpre
  unfold respects_nesting at hn ⊢
  rw [final_os_flag env t h hext TARGET_OS_MAC (by simp),
    final_os_flag env t h hext TARGET_OS_OSX (by simp),
    final_os_flag env t h hext TARGET_OS_IPHONE (by simp),
    final_os_flag env t h hext TARGET_OS_IOS (by simp),
    final_os_flag env t h hext TARGET_OS_MACCATALYST (by simp),
    final_os_flag env t h hext TARGET_OS_VISION (by simp),
    final_os_flag env t h hext TARGET_OS_DRIVERKIT (by simp)]
  exact hn

/-- Witness of C4: clang for `x86_64-apple-ios-macabi` with nothing predefined ends
with `TARGET_OS_MACCATALYST`, `TARGET_OS_IOS`, `TARGET_OS_IPHONE` and
`TARGET_OS_MAC` all `1`. -/
theorem os_flags_respect_nesting_witness :
    define_target_os_macros_absent
        (clang_x86_64 (some OS.ios) (some Environment.macabi) nothing_predefined)
      ∧ no_target_os_predefined
        (clang_x86_64 (some OS.ios) (some Environment.macabi) nothing_predefined)
      ∧ ∃ t,
        header (clang_x86_64 (some OS.ios) (some Environment.macabi) nothing_predefined)
          = Except.ok t
        ∧ respects_nesting t ∧ t TARGET_OS_MACCATALYST = some (Body.num 1)
        ∧ t TARGET_OS_MAC = some (Body.num 1) :=
  ⟨by decide, fun _ _ => rfl, _, rfl,
    os_flags_respect_nesting
      (clang_x86_64 (some OS.ios) (some Environment.macabi) nothing_predefined) _ rfl
      (by decide) (fun _ _ => rfl),
    by decide, by decide⟩

/-- C5: in every build environment processed without error, with the
`define_target_os_macros` extension absent and no `TARGET_OS_*` predefined,
`TARGET_OS_SIMULATOR` and `TARGET_OS_EMBEDDED` are never both `1`. -/
theorem simulator_embedded_exclusive (env : Env) (t : Table)
    (h : header env = Except.ok t)
    (hext : define_target_os_macros_absent env) (hpre : no_target_os_predefined env) :
    ¬ (t TARGET_OS_SIMULATOR = some (Body.num 1)
        ∧ t TARGET_OS_EMBEDDED = some (Body.num 1)) := by
  rw [final_os_flag env t h hext TARGET_OS_SIMULATOR (by simp),
    final_os_flag env t h hext TARGET_OS_EMBEDDED (by simp)]
  exact os_simulator_embedded env hpre

/-- Witness of C5: clang for `arm64-apple-xros` (a device) with nothing predefined
ends with `TARGET_OS_EMBEDDED` as `1` and `TARGET_OS_SIMULATOR` as `0`. -/
theorem simulator_embedded_exclusive_witness :
    define_target_os_macros_absent (clang_arm64 (some OS.xros) none nothing_predefined)
      ∧ no_target_os_predefined (clang_arm64 (some OS.xros) none nothing_predefined)
      ∧ ∃ t, header (clang_arm64 (some OS.xros) none nothing_predefined) = Except.ok t
        ∧ ¬ (t TARGET_OS_SIMULATOR = some (Body.num 1)
              ∧ t TARGET_OS_EMBEDDED = some (Body.num 1))
        ∧ t TARGET_OS_EMBEDDED = some (Body.num 1)
        ∧ t TARGET_OS_SIMULATOR = some (Body.num 0) :=
  ⟨by decide, fun _ _ => rfl, _, rfl,
    simulator_embedded_exclusive (clang_arm64 (some OS.xros) none nothing_predefined) _
      rfl (by decide) (fun _ _ => rfl),
    by decide, by decide⟩

/-- C6, at the failing input: an unknown compiler with
`-DTARGET_CPU_X86_64=1 -DTARGET_OS_UNIX=1` on the command line is processed to the
end, line 261 defines `TARGET_OS_MAC` as `1` all the same, and both
`TARGET_OS_MAC` and `TARGET_OS_UNIX` evaluate to `1`. -/
theorem mac_and_unix_both_one :
    ∃ t, header (unknown_compiler predefine_x86_64_unix) = Except.ok t
      ∧ value t TARGET_OS_MAC = 1 ∧ value t TARGET_OS_UNIX = 1
      ∧ value t TARGET_OS_WIN32 = 0 :=
  ⟨_, rfl, by decide, by decide, by decide⟩

/-- C7, as amended: when `__has_extension` is defined and reports the
`define_target_os_macros` extension absent, and the four `__is_target_*` builtins
are available, for every arch in x86_64, arm64, arm64e with vendor apple and os
ios, the header is processed to the end (unless the compiler is Metrowerks and
not Apple GCC, with neither `__POWERPC__` nor `__INTEL__`), and then: environment macabi yields `TARGET_OS_MAC`,
`TARGET_OS_IPHONE`, `TARGET_OS_IOS` and `TARGET_OS_MACCATALYST` equal to `1`;
environment simulator yields `TARGET_OS_MAC`, `TARGET_OS_IPHONE`, `TARGET_OS_IOS`
and `TARGET_OS_SIMULATOR` equal to `1`; in both cases `DYNAMIC_TARGETS_ENABLED`
is `1`, lines 141-262 do not set `TARGET_OS_OSX`, and `TARGET_OS_OSX` ends as `0`
when it is not predefined and with its predefined value otherwise. -/
theorem ios_macabi_and_simulator (env : Env)
    (hext : no_define_target_os_macros env = some true)
    (hb : has_target_builtins env = true) (htarget : apple_ios_target env) :
    (¬ metrowerks_unknown_cpu env → ∃ t, header env = Except.ok t)
      ∧ ∀ t, header env = Except.ok t →
        (env.is_target_environment Environment.macabi = true →
            t TARGET_OS_MAC = some (Body.num 1) ∧ t TARGET_OS_IPHONE = some (Body.num 1)
              ∧ t TARGET_OS_IOS = some (Body.num 1)
              ∧ t TARGET_OS_MACCATALYST = some (Body.num 1))
          ∧ (env.is_target_environment Environment.simulator = true →
            t TARGET_OS_MAC = some (Body.num 1) ∧ t TARGET_OS_IPHONE = some (Body.num 1)
              ∧ t TARGET_OS_IOS = some (Body.num 1)
              ∧ t TARGET_OS_SIMULATOR = some (Body.num 1))
          ∧ (env.is_target_environment Environment.macabi = true
                ∨ env.is_target_environment Environment.simulator = true →
            t DYNAMIC_TARGETS_ENABLED = some (Body.num 1)
              ∧ os_body env (initial env) TARGET_OS_OSX = initial env TARGET_OS_OSX
              ∧ t TARGET_OS_OSX
                  = some (Body.num ((env.predefined TARGET_OS_OSX).getD 0))) := by
  have habs : define_target_os_macros_absent env := by
    unfold define_target_os_macros_absent
    rw [hext]
    decide
  have harch := has_is_target_arch_of env hb
  constructor
  · intro hna
    rw [header_ok_iff env (by rw [hext]; decide) (by rw [harch]; decide)]
    rintro (ha | hu | hc | hd)
    · exact hna ha
    · obtain ⟨-, h1, h2, -, -, h3, -⟩ := hu
      obtain ⟨hx | hx | hx, -, -⟩ := htarget
      · rw [h3] at hx; cases hx
      · rw [h1] at hx; cases hx
      · rw [h2] at hx; cases hx
    · exact hc.1 harch
    · exact hd.1 harch
  · intro t h
    have hosx : ∀ o : Option Body, o = initial env TARGET_OS_OSX →
        some (o.getD (Body.num 0))
          = some (Body.num ((env.predefined TARGET_OS_OSX).getD 0)) := by
      rintro o rfl
      unfold initial
      cases env.predefined TARGET_OS_OSX <;> rfl
    refine ⟨fun he => ?_, fun he => ?_, fun he => ?_⟩
    · obtain ⟨m1, m2, m3, m4, -, -⟩ :=
        os_body_macabi env hb (macabi_target_of env htarget he)
      rw [final_os_flag env t h habs TARGET_OS_MAC (by simp),
        final_os_flag env t h habs TARGET_OS_IPHONE (by simp),
        final_os_flag env t h habs TARGET_OS_IOS (by simp),
        final_os_flag env t h habs TARGET_OS_MACCATALYST (by simp), m1, m2, m3, m4]
      exact ⟨rfl, rfl, rfl, rfl⟩
    · obtain ⟨m1, m2, m3, m4, -, -⟩ :=
        os_body_simulator env hb (simulator_target_of env htarget he)
      rw [final_os_flag env t h habs TARGET_OS_MAC (by simp),
        final_os_flag env t h habs TARGET_OS_IPHONE (by simp),
        final_os_flag env t h habs TARGET_OS_IOS (by simp),
        final_os_flag env t h habs TARGET_OS_SIMULATOR (by simp), m1, m2, m3, m4]
      exact ⟨rfl, rfl, rfl, rfl⟩
    · rw [final_dynamic_targets_enabled env t h habs,
        final_os_flag env t h habs TARGET_OS_OSX (by simp)]
      rcases he with he | he
      · obtain ⟨-, -, -, -, m5, m6⟩ :=
          os_body_macabi env hb (macabi_target_of env htarget he)
        exact ⟨m5, m6, hosx _ m6⟩
      · obtain ⟨-, -, -, -, m5, m6⟩ :=
          os_body_simulator env hb (simulator_target_of env htarget he)
        exact ⟨m5, m6, hosx _ m6⟩

/-- Witness of C7 as amended: clang for `x86_64-apple-ios-macabi` with nothing
predefined. -/
theorem ios_macabi_and_simulator_witness :
    no_define_target_os_macros
        (clang_x86_64 (some OS.ios) (some Environment.macabi) nothing_predefined)
          = some true
      ∧ has_target_builtins
        (clang_x86_64 (some OS.ios) (some Environment.macabi) nothing_predefined) = true
      ∧ apple_ios_target
        (clang_x86_64 (some OS.ios) (some Environment.macabi) nothing_predefined)
      ∧ ∃ t,
        header (clang_x86_64 (some OS.ios) (some Environment.macabi) nothing_predefined)
          = Except.ok t
        ∧ t TARGET_OS_MAC = some (Body.num 1) ∧ t TARGET_OS_IPHONE = some (Body.num 1)
        ∧ t TARGET_OS_IOS = some (Body.num 1)
        ∧ t TARGET_OS_MACCATALYST = some (Body.num 1)
        ∧ t DYNAMIC_TARGETS_ENABLED = some (Body.num 1)
        ∧ t TARGET_OS_OSX = some (Body.num 0) :=
  have w := (ios_macabi_and_simulator
    (clang_x86_64 (some OS.ios) (some Environment.macabi) nothing_predefined)
    rfl rfl ⟨Or.inl rfl, rfl, rfl⟩).2 _ rfl
  ⟨rfl, rfl, ⟨Or.inl rfl, rfl, rfl⟩, _, rfl, (w.1 rfl).1, (w.1 rfl).2.1, (w.1 rfl).2.2.1,
    (w.1 rfl).2.2.2, (w.2.2 (Or.inl rfl)).1, (w.2.2 (Or.inl rfl)).2.2⟩

/-- Counterexample to C7 as stated: clang for `x86_64-apple-ios-macabi` with
`-DTARGET_OS_OSX=1` on the command line meets every condition of the claim and
`TARGET_OS_OSX` ends as `1`, not `0`. -/
theorem ios_macabi_osx_counterexample :
    no_define_target_os_macros
        (clang_x86_64 (some OS.ios) (some Environment.macabi) predefine_os_osx)
          = some true
      ∧ has_target_builtins
        (clang_x86_64 (some OS.ios) (some Environment.macabi) predefine_os_osx) = true
      ∧ apple_ios_target
        (clang_x86_64 (some OS.ios) (some Environment.macabi) predefine_os_osx)
      ∧ (clang_x86_64 (some OS.ios) (some Environment.macabi)
          predefine_os_osx).is_target_environment Environment.macabi = true
      ∧ ∃ t, header (clang_x86_64 (some OS.ios) (some Environment.macabi) predefine_os_osx)
          = Except.ok t
        ∧ t TARGET_OS_OSX = some (Body.num 1) ∧ t TARGET_OS_OSX ≠ some (Body.num 0) :=
  ⟨rfl, rfl, ⟨Or.inl rfl, rfl, rfl⟩, rfl, _, rfl, by decide, by decide⟩

/-- C8, at the failing input: clang for an `arm64` Apple target with environment
`exclavecore`, the `define_target_os_macros` extension absent and nothing
predefined, is processed to the end with `TARGET_RT_MAC_MACHO` as `1` and
`TARGET_OS_MAC` as `0`. -/
theorem exclavecore_macho_without_mac :
    no_define_target_os_macros
        (clang_arm64 none (some Environment.exclavecore) nothing_predefined) = some true
      ∧ ∃ t, header (clang_arm64 none (some Environment.exclavecore) nothing_predefined)
          = Except.ok t
        ∧ t TARGET_RT_MAC_MACHO = some (Body.num 1)
        ∧ t TARGET_OS_MAC = some (Body.num 0) :=
  ⟨rfl, _, rfl, by decide, by decide⟩

/-- C9, at the failing inputs: GCC for x86_64 macOS is processed to the end and
`TARGET_OS_BRIDGE` is not defined afterwards; an unknown compiler with
`-DTARGET_CPU_X86_64=1` is processed to the end and neither `TARGET_OS_UNIX` nor
`TARGET_OS_BRIDGE` is defined afterwards. -/
theorem bridge_and_unix_not_defined :
    (∃ t, header gcc_macos = Except.ok t ∧ t TARGET_OS_BRIDGE = none)
      ∧ (∃ t, header (unknown_compiler predefine_cpu_x86_64) = Except.ok t
          ∧ t TARGET_OS_UNIX = none ∧ t TARGET_OS_BRIDGE = none) :=
  ⟨⟨_, rfl, by decide⟩, ⟨_, rfl, by decide, by decide⟩⟩

end TargetConditionals
